import Mathlib

/-!
Verification development for the AmplitudeAudio CLI core.

The definitions below are a shallow embedding of the Rust sources:

* `src/common/errors.rs` — error taxonomy (`CliError`, `error_type_name`,
  `error_suggestion`, `determine_exit_code`, exit code constants);
* `src/presentation/json.rs` — JSON renderer (`JsonErrorDetails`,
  `JsonResponse`, `build_success_response`, `build_error_response`,
  `serialize_response`, `write_response`, `error_type_from_code`,
  `suggestion_from_code`);
* `src/input/non_interactive.rs` and `src/main.rs` — non-interactive input
  and the startup input/output mode selection;
* `src/database/connection.rs` — `DatabaseTransaction` (begin / commit /
  rollback-on-drop);
* `src/database/migrations.rs` — the migration engine
  (`MigrationManager::run_migrations`, `apply_migration`,
  `get_current_version`, `calculate_checksum`, `verify_migrations`).

Machine integers: the Rust error codes are `i32`; all arithmetic on them is
comparison only, far from the `i32` boundaries, so they are embedded as `Int`.
Migration versions are `u32` used only with `<`, `max` and equality, embedded
as `Nat`.

The embedded SQLite store is modelled by `DbState`: the `schema_migrations`
table (absent or a list of rows) plus an opaque list of other schema objects.
The semantics of executing a migration's SQL text is an explicit parameter
`exec : SqlExec` (SQLite itself is an external library, not part of this
repository); the engine's own INSERT into `schema_migrations` is modelled
directly.  `BEGIN`/`COMMIT`/`ROLLBACK` follow SQLite's transactional
semantics: work happens on a forked state that becomes visible at `COMMIT`
and is discarded by `ROLLBACK`.
-/

/-! ## Error taxonomy (`src/common/errors.rs`) -/

/-- `codes::ERR_VALIDATION_SCHEMA` -/
def ERR_VALIDATION_SCHEMA : Int := -31001
/-- `codes::ERR_VALIDATION_FIELD` -/
def ERR_VALIDATION_FIELD : Int := -31002
/-- `codes::ERR_VALIDATION_FORMAT` -/
def ERR_VALIDATION_FORMAT : Int := -31003
/-- `codes::ERR_ASSET_NOT_FOUND` -/
def ERR_ASSET_NOT_FOUND : Int := -30001
/-- `codes::ERR_ASSET_ALREADY_EXISTS` -/
def ERR_ASSET_ALREADY_EXISTS : Int := -30002
/-- `codes::ERR_ASSET_IN_USE` -/
def ERR_ASSET_IN_USE : Int := -30003
/-- `codes::ERR_PROJECT_NOT_INITIALIZED` -/
def ERR_PROJECT_NOT_INITIALIZED : Int := -29001
/-- `codes::ERR_PROJECT_NOT_REGISTERED` -/
def ERR_PROJECT_NOT_REGISTERED : Int := -29002
/-- `codes::ERR_PROJECT_ALREADY_EXISTS` -/
def ERR_PROJECT_ALREADY_EXISTS : Int := -29003
/-- `codes::ERR_TEMPLATE_COPY_FAILED` -/
def ERR_TEMPLATE_COPY_FAILED : Int := -29004
/-- `codes::ERR_SDK_NOT_FOUND` -/
def ERR_SDK_NOT_FOUND : Int := -28001
/-- `codes::ERR_SDK_SCHEMA_LOAD_FAILED` -/
def ERR_SDK_SCHEMA_LOAD_FAILED : Int := -28002

/-- `error_type_name` from `src/common/errors.rs` (lines 165-193): the error
taxonomy module's code → type-name mapper.  The Rust `match` with constant
arms followed by range arms is embedded as the same ordered decision chain. -/
def error_type_name (code : Int) : String :=
  if code = ERR_VALIDATION_SCHEMA then "schema_validation_error"
  else if code = ERR_VALIDATION_FIELD then "field_validation_error"
  else if code = ERR_VALIDATION_FORMAT then "format_validation_error"
  else if -31999 ≤ code ∧ code ≤ -31000 then "validation_error"
  else if code = ERR_ASSET_NOT_FOUND then "asset_not_found"
  else if code = ERR_ASSET_ALREADY_EXISTS then "asset_already_exists"
  else if code = ERR_ASSET_IN_USE then "asset_in_use"
  else if -30999 ≤ code ∧ code ≤ -30000 then "asset_error"
  else if code = ERR_PROJECT_NOT_INITIALIZED then "project_not_initialized"
  else if code = ERR_PROJECT_NOT_REGISTERED then "project_not_registered"
  else if code = ERR_PROJECT_ALREADY_EXISTS then "project_already_exists"
  else if code = ERR_TEMPLATE_COPY_FAILED then "template_copy_failed"
  else if -29999 ≤ code ∧ code ≤ -29000 then "project_error"
  else if code = ERR_SDK_NOT_FOUND then "sdk_not_found"
  else if code = ERR_SDK_SCHEMA_LOAD_FAILED then "schema_load_failed"
  else if -28999 ≤ code ∧ code ≤ -28000 then "sdk_error"
  else "unknown_error"

/-- `error_suggestion` from `src/common/errors.rs` (lines 199-251): default
remediation text chosen from the error code (specific codes first, then the
range fallbacks). -/
def error_suggestion (code : Int) : String :=
  if code = ERR_PROJECT_NOT_REGISTERED then
    "Register the project with 'am project register <path>'"
  else if code = ERR_PROJECT_NOT_INITIALIZED then
    "Initialize a project with 'am project init <name>'"
  else if code = ERR_PROJECT_ALREADY_EXISTS then
    "Use a different name or remove the existing project first"
  else if code = ERR_TEMPLATE_COPY_FAILED then
    "Check file permissions and ensure the template path is correct"
  else if code = ERR_SDK_NOT_FOUND then
    "Set the AM_SDK_PATH environment variable to your SDK installation"
  else if code = ERR_SDK_SCHEMA_LOAD_FAILED then
    "Verify your SDK installation is complete and AM_SDK_PATH is correct"
  else if code = ERR_ASSET_NOT_FOUND then
    "Verify the asset name or create it with the appropriate create command"
  else if code = ERR_ASSET_ALREADY_EXISTS then
    "Use a different name or delete the existing asset first"
  else if code = ERR_ASSET_IN_USE then
    "Remove references to this asset from other assets before modifying"
  else if code = ERR_VALIDATION_SCHEMA then
    "Check that your JSON structure matches the expected schema"
  else if code = ERR_VALIDATION_FIELD then
    "Check your input values and correct the invalid field"
  else if code = ERR_VALIDATION_FORMAT then
    "Check the format of your input and try again"
  else if -31999 ≤ code ∧ code ≤ -31000 then "Check your input values and try again"
  else if -30999 ≤ code ∧ code ≤ -30000 then "Verify the asset exists or create it first"
  else if -29999 ≤ code ∧ code ≤ -29000 then "Initialize a project or register an existing one"
  else if -28999 ≤ code ∧ code ≤ -28000 then "Set AM_SDK_PATH environment variable"
  else "Check the error message for details"

/-- `CliError` from `src/common/errors.rs`: code, what, why, suggestion and
optional context. -/
structure CliError where
  code : Int
  what : String
  why : String
  suggestion : String
  context : Option String
deriving Repr, DecidableEq

/-- `CliError::new`: suggestion auto-populated from the code's range. -/
def CliError.new (code : Int) (what why : String) : CliError :=
  { code := code, what := what, why := why,
    suggestion := error_suggestion code, context := none }

/-- `CliError::with_suggestion`: override the default suggestion. -/
def CliError.with_suggestion (e : CliError) (s : String) : CliError :=
  { e with suggestion := s }

/-- `CliError::with_context`: attach optional context. -/
def CliError.with_context (e : CliError) (c : String) : CliError :=
  { e with context := some c }

/-- `impl Display for CliError`: `"{what}: {why}"` plus `" ({context})"` when
context is present. -/
def CliError.display (e : CliError) : String :=
  e.what ++ ": " ++ e.why ++
    (match e.context with
     | some ctx => " (" ++ ctx ++ ")"
     | none => "")

/-- An `anyhow::Error` as seen by `determine_exit_code` and the renderers:
either it downcasts to a `CliError` or it is some other error whose only
observable part here is its display string. -/
inductive AnyError where
  | cli (e : CliError)
  | other (msg : String)
deriving Repr, DecidableEq

/-- `err.to_string()` on an `anyhow::Error`: for a wrapped `CliError` this is
its `Display` output. -/
def AnyError.toMessage : AnyError → String
  | .cli e => e.display
  | .other msg => msg

/-- `exit_codes::SUCCESS` -/
def SUCCESS : Int := 0
/-- `exit_codes::USER_ERROR` -/
def USER_ERROR : Int := 1
/-- `exit_codes::SYSTEM_ERROR` -/
def SYSTEM_ERROR : Int := 2

/-- `determine_exit_code` from `src/common/errors.rs` (lines 401-414):
SDK-range (`-28999..=-28000`) `CliError`s are system errors, every other
`CliError` is a user error, and an error that is not a `CliError` defaults to
system error. -/
def determine_exit_code : AnyError → Int
  | .cli e => if -28999 ≤ e.code ∧ e.code ≤ -28000 then SYSTEM_ERROR else USER_ERROR
  | .other _ => SYSTEM_ERROR

/-- `OutputMode` from `src/presentation/mod.rs`. -/
inductive OutputMode where
  | interactive
  | json
deriving Repr, DecidableEq

/-- Output-mode selection in `src/main.rs`: `--json` selects the JSON
renderer, otherwise the interactive one. -/
def outputModeOf (jsonFlag : Bool) : OutputMode :=
  if jsonFlag then .json else .interactive

/-- The error branch of `main` in `src/main.rs` (lines 32-53): the exit code
is computed by `determine_exit_code` before and independently of rendering,
whatever output mode the `--json` flag selected. -/
def mainExitOnError (_jsonFlag : Bool) (e : AnyError) : Int :=
  determine_exit_code e

/-! ## JSON renderer (`src/presentation/json.rs`) -/

/-- A `serde_json::Value`.  Numbers in the envelopes produced by this program
are the `i32` error codes, embedded as `Int`. -/
inductive JVal where
  | null
  | bool (b : Bool)
  | num (n : Int)
  | str (s : String)
  | arr (xs : List JVal)
  | obj (fields : List (String × JVal))
deriving Repr

/-- Lower-case hexadecimal digit, as `serde_json` prints escape sequences. -/
def hexDigit (n : Nat) : Char :=
  if n < 10 then Char.ofNat (48 + n) else Char.ofNat (87 + n)

/-- `serde_json`'s escaping of a single character inside a JSON string. -/
def escapeChar (c : Char) : String :=
  if c = '"' then "\\\""
  else if c = '\\' then "\\\\"
  else if c = Char.ofNat 8 then "\\b"
  else if c = Char.ofNat 9 then "\\t"
  else if c = Char.ofNat 10 then "\\n"
  else if c = Char.ofNat 12 then "\\f"
  else if c = Char.ofNat 13 then "\\r"
  else if c.toNat < 32 then
    "\\u00" ++ String.singleton (hexDigit (c.toNat / 16)) ++
      String.singleton (hexDigit (c.toNat % 16))
  else String.singleton c

/-- A JSON string literal: quotes around the escaped characters. -/
def jsonEscapeString (s : String) : String :=
  "\"" ++ String.join (s.data.map escapeChar) ++ "\""

/-- `4.14`-style two-space indentation of `serde_json::to_string_pretty`. -/
def indentOf (n : Nat) : String :=
  String.join (List.replicate n "  ")

mutual

/-- `serde_json::to_string_pretty`'s layout (the `PrettyFormatter` with
two-space indent): compound values open a bracket, print one element per
line at the next indent level, and close the bracket on its own line. -/
def prettyVal (ind : Nat) : JVal → String
  | .null => "null"
  | .bool b => if b then "true" else "false"
  | .num n => toString n
  | .str s => jsonEscapeString s
  | .arr [] => "[]"
  | .arr (x :: xs) =>
      "[\n" ++ prettyItems (ind + 1) x xs ++ "\n" ++ indentOf ind ++ "]"
  | .obj [] => "\x7b\x7d"
  | .obj ((k, v) :: fs) =>
      "\x7b\n" ++ prettyFields (ind + 1) k v fs ++ "\n" ++ indentOf ind ++ "\x7d"
termination_by v => sizeOf v

/-- Comma-and-newline separated array items, each indented. -/
def prettyItems (ind : Nat) (x : JVal) (xs : List JVal) : String :=
  match xs with
  | [] => indentOf ind ++ prettyVal ind x
  | y :: ys => indentOf ind ++ prettyVal ind x ++ ",\n" ++ prettyItems ind y ys
termination_by 1 + sizeOf x + sizeOf xs

/-- Comma-and-newline separated object fields, each indented. -/
def prettyFields (ind : Nat) (k : String) (v : JVal) (fs : List (String × JVal)) : String :=
  match fs with
  | [] => indentOf ind ++ jsonEscapeString k ++ ": " ++ prettyVal ind v
  | (k2, v2) :: gs =>
      indentOf ind ++ jsonEscapeString k ++ ": " ++ prettyVal ind v ++ ",\n" ++
        prettyFields ind k2 v2 gs
termination_by 1 + sizeOf v + sizeOf fs

end

/-- `JsonErrorDetails` from `src/presentation/json.rs` (lines 28-39): the
error half of the envelope.  Its fields are exactly `code`, `type`
(serialized name of `type_`), `message` and `suggestion`. -/
structure JsonErrorDetails where
  code : Int
  type_ : String
  message : String
  suggestion : String
deriving Repr, DecidableEq

/-- `JsonResponse` from `src/presentation/json.rs`: `ok` plus optional
`value` and `error`, both skipped (not null) when `None`. -/
structure JsonResponse where
  ok : Bool
  value : Option JVal
  error : Option JsonErrorDetails
deriving Repr

/-- Serde serialization of `JsonErrorDetails` (derive `Serialize` with
`rename = "type"` on `type_`). -/
def JsonErrorDetails.toJson (d : JsonErrorDetails) : JVal :=
  .obj [("code", .num d.code), ("type", .str d.type_),
        ("message", .str d.message), ("suggestion", .str d.suggestion)]

/-- Serde serialization of `JsonResponse` (derive `Serialize` with
`skip_serializing_if = "Option::is_none"` on `value` and `error`): absent
options contribute no field at all. -/
def JsonResponse.toJson (r : JsonResponse) : JVal :=
  .obj ([("ok", .bool r.ok)] ++
    (match r.value with | some v => [("value", v)] | none => []) ++
    (match r.error with | some d => [("error", d.toJson)] | none => []))

/-- `error_type_from_code` from `src/presentation/json.rs` (lines 139-166):
the JSON renderer's own code → type-name mapper, maintained separately from
`error_type_name` in the taxonomy module. -/
def error_type_from_code (code : Int) : String :=
  if code = -31001 then "schema_validation_error"
  else if code = -31002 then "field_validation_error"
  else if code = -31003 then "format_validation_error"
  else if -31999 ≤ code ∧ code ≤ -31000 then "validation_error"
  else if code = -30001 then "asset_not_found"
  else if code = -30002 then "asset_already_exists"
  else if code = -30003 then "asset_in_use"
  else if -30999 ≤ code ∧ code ≤ -30000 then "asset_error"
  else if code = -29001 then "project_not_initialized"
  else if code = -29002 then "project_not_registered"
  else if code = -29003 then "project_already_exists"
  else if -29999 ≤ code ∧ code ≤ -29000 then "project_error"
  else if code = -28001 then "sdk_not_found"
  else if code = -28002 then "schema_load_failed"
  else if -28999 ≤ code ∧ code ≤ -28000 then "sdk_error"
  else "unknown_error"

/-- `suggestion_from_code` from `src/presentation/json.rs` (lines 172-180):
range-generic suggestion used by the JSON renderer. -/
def suggestion_from_code (code : Int) : String :=
  if -31999 ≤ code ∧ code ≤ -31000 then "Check your input values and try again"
  else if -30999 ≤ code ∧ code ≤ -30000 then "Verify the asset exists or create it first"
  else if -29999 ≤ code ∧ code ≤ -29000 then "Initialize a project or register an existing one"
  else if -28999 ≤ code ∧ code ≤ -28000 then "Set AM_SDK_PATH environment variable"
  else "Check the error message for details"

/-- `JsonOutput::build_success_response`. -/
def build_success_response (data : JVal) : JsonResponse :=
  { ok := true, value := some data, error := none }

/-- `JsonOutput::build_error_response` (lines 74-86): type and suggestion are
derived from the numeric code alone; the message is `err.to_string()`. -/
def build_error_response (err : AnyError) (code : Int) : JsonResponse :=
  { ok := false, value := none,
    error := some { code := code, type_ := error_type_from_code code,
                    message := err.toMessage,
                    suggestion := suggestion_from_code code } }

/-- `JsonOutput::serialize_response` (lines 90-93):
`serde_json::to_string_pretty`. -/
def serialize_response (r : JsonResponse) : String :=
  prettyVal 0 r.toJson

/-- `JsonOutput::write_response` (lines 97-105): `writeln!` of the serialized
response, i.e. the serialization followed by a newline. -/
def write_response (r : JsonResponse) : String :=
  serialize_response r ++ "\n"

/-- What a process call writes to the two standard streams. -/
structure ProcOutput where
  stdout : String
  stderr : String
deriving Repr, DecidableEq

/-- `JsonOutput::success` (`impl Output`, lines 109-114): one
`write_response` of the success envelope to stdout, nothing to stderr. -/
def JsonOutput.success (data : JVal) : ProcOutput :=
  { stdout := write_response (build_success_response data), stderr := "" }

/-- `JsonOutput::error` (`impl Output`, lines 116-121): one `write_response`
of the error envelope to stdout, nothing to stderr. -/
def JsonOutput.errorCall (err : AnyError) (code : Int) : ProcOutput :=
  { stdout := write_response (build_error_response err code), stderr := "" }

/-- Number of newline characters in a string; a string that is exactly one
output line contains exactly one, the trailing one. -/
def newlineCount (s : String) : Nat :=
  s.data.count (Char.ofNat 10)

/-! ## Input (`src/input/non_interactive.rs`, `src/input/mod.rs`, `src/main.rs`) -/

/-- `InputMode` from `src/input/mod.rs`. -/
inductive InputMode where
  | interactive
  | nonInteractive
deriving Repr, DecidableEq

/-- Input-mode selection in `src/main.rs` (lines 144-149): `--json` implies
non-interactive input, as does `--non-interactive` itself. -/
def selectInputMode (jsonFlag nonInteractiveFlag : Bool) : InputMode :=
  if jsonFlag || nonInteractiveFlag then .nonInteractive else .interactive

/-- The constant tail of `NonInteractiveInput::blocked`'s format string (the
Rust literal uses a line-continuation backslash, so the two lines join with a
single space). -/
def blockedTail : String :=
  "' blocked: non-interactive mode is enabled. Please provide the required input via command-line arguments instead."

/-- `NonInteractiveInput::blocked` (lines 22-29): the error message built for
any attempted prompt. -/
def blocked (kind prompt : String) : String :=
  "Interactive " ++ kind ++ " '" ++ prompt ++ blockedTail

/-- `NonInteractiveInput::prompt_text` (impl `Input`, lines 33-41): ignores
placeholder, formatter and validator, and fails immediately. -/
def NonInteractiveInput.prompt_text (prompt : String) (_placeholder : Option String)
    (_formatter : Option (String → String)) (_validator : Option (String → Bool)) :
    Except String String :=
  .error (blocked "prompt" prompt)

/-- `NonInteractiveInput::select` (line 43-45): fails immediately. -/
def NonInteractiveInput.select (prompt : String) (_options : List String) :
    Except String String :=
  .error (blocked "selection" prompt)

/-- `NonInteractiveInput::confirm` (line 47-49): fails immediately. -/
def NonInteractiveInput.confirm (prompt : String) (_dflt : Option Bool) :
    Except String Bool :=
  .error (blocked "confirmation" prompt)

/-! ## Store and transactions (`src/database/connection.rs`)

The embedded SQLite store, as observed by the migration engine: the
`schema_migrations` table (absent on a fresh store, otherwise a list of rows
in insertion order) and the rest of the schema, opaque to the engine, as a
list of named objects. -/

/-- A row of `schema_migrations`: `{version, description, checksum}` (the
`applied_at` column is filled by the store's own `CURRENT_TIMESTAMP` default
and never read by the engine, so it is not modelled). -/
structure MigrationRecord where
  version : Nat
  description : String
  checksum : String
deriving Repr, DecidableEq

/-- The observable state of the embedded store. -/
structure DbState where
  schemaMigrations : Option (List MigrationRecord)
  objects : List String
deriving Repr, DecidableEq

/-- The versions recorded in `schema_migrations` (empty when the table does
not exist). -/
def recordVersions (db : DbState) : List Nat :=
  match db.schemaMigrations with
  | none => []
  | some rs => rs.map (fun r => r.version)

/-- The number of `MigrationRecord` rows in the store. -/
def recordCount (db : DbState) : Nat :=
  (recordVersions db).length

/-- The semantics of executing one batch of SQL text against the store:
`none` is a failed statement.  SQLite itself is an external collaborator, so
the meaning of each migration's SQL is a parameter of the development. -/
def SqlExec : Type :=
  String → DbState → Option DbState

/-- The engine's own
`INSERT INTO schema_migrations (version, description, checksum)`:
fails when the table does not exist or the primary key `version` is already
taken, otherwise appends the row. -/
def insertMigrationRecord (db : DbState) (v : Nat) (d c : String) : Option DbState :=
  match db.schemaMigrations with
  | none => none
  | some rs =>
      if rs.any (fun r => r.version = v) then none
      else some { db with schemaMigrations := some (rs ++ [⟨v, d, c⟩]) }

/-- `DatabaseTransaction` from `src/database/connection.rs` (lines 165-241):
`base` is the committed state `BEGIN` forked from, `work` the state the
transaction's statements act on, `committed` the flag set by `commit`. -/
structure DatabaseTransaction where
  base : DbState
  work : DbState
  committed : Bool
deriving Repr, DecidableEq

/-- `Database::transaction` / `DatabaseTransaction::new` (lines 101-103 and
172-186): issues `BEGIN`, forking the current committed state. -/
def Database.transaction (db : DbState) : DatabaseTransaction :=
  { base := db, work := db, committed := false }

/-- `DatabaseTransaction::execute_batch` (lines 203-211): runs the SQL
against the transaction's working state. -/
def DatabaseTransaction.execute_batch (exec : SqlExec) (t : DatabaseTransaction)
    (sql : String) : Option DatabaseTransaction :=
  (exec sql t.work).map (fun w => { t with work := w })

/-- `DatabaseTransaction::execute` (lines 189-200) as used by the migration
engine: the `INSERT INTO schema_migrations` statement. -/
def DatabaseTransaction.execute_insert_record (t : DatabaseTransaction)
    (v : Nat) (d c : String) : Option DatabaseTransaction :=
  (insertMigrationRecord t.work v d c).map (fun w => { t with work := w })

/-- `DatabaseTransaction::commit` (lines 214-225): issues `COMMIT`, making
the working state durable, and sets the `committed` flag. -/
def DatabaseTransaction.commit (t : DatabaseTransaction) : DatabaseTransaction :=
  { t with committed := true }

/-- `impl Drop for DatabaseTransaction` (lines 243-251): when the handle is
dropped without `committed` having been set, a `ROLLBACK` is issued and the
store returns to the state from before `BEGIN`; a committed handle issues
nothing.  Returns the resulting store state and whether a `ROLLBACK` was
issued. -/
def DatabaseTransaction.dropHandle (t : DatabaseTransaction) : DbState × Bool :=
  if t.committed then (t.work, false) else (t.base, true)

/-- Running a list of statements inside one open transaction (how a caller
uses the handle between `BEGIN` and `commit`/drop). -/
def txnRun (exec : SqlExec) (t : DatabaseTransaction) : List String → Option DatabaseTransaction
  | [] => some t
  | sql :: rest =>
      match DatabaseTransaction.execute_batch exec t sql with
      | none => none
      | some t1 => txnRun exec t1 rest

/-! ## Migration engine (`src/database/migrations.rs`) -/

/-- `Migration` (lines 7-16): a catalog entry. -/
structure Migration where
  version : Nat
  description : String
  up_sql : String
  down_sql : Option String
deriving Repr, DecidableEq

/-- The checksum hash: Rust's `DefaultHasher` fed `(version, description,
up_sql, down_sql?)`.  The hash itself lives in the standard library, outside
this repository, so it is a parameter; everything the engine relies on is
that it is a pure function of these four fields. -/
def HashFn : Type :=
  Nat → String → String → Option String → String

/-- `MigrationManager::calculate_checksum` (lines 299-312): hash of the
migration's version, description, forward SQL and (when present) backward
SQL. -/
def calculate_checksum (hash : HashFn) (m : Migration) : String :=
  hash m.version m.description m.up_sql m.down_sql

/-- `MigrationManager::get_current_version` (lines 154-189): `0` when the
`schema_migrations` table does not exist, otherwise
`COALESCE(MAX(version), 0)`. -/
def get_current_version (db : DbState) : Nat :=
  match db.schemaMigrations with
  | none => 0
  | some rs => rs.foldl (fun acc r => max acc r.version) 0

/-- The pending selection in `run_migrations` (lines 197-201): catalog
entries with `version > current`.  The manager's `BTreeMap` (whose keys are
the entries' version fields, by construction in `new`) iterates in
ascending key order, so the catalog list is taken sorted by version. -/
def pendingMigrations (migs : List Migration) (current : Nat) : List Migration :=
  migs.filter (fun m => current < m.version)

/-- `MigrationManager::apply_migration` (lines 220-253): open a transaction,
run the forward SQL, insert the `MigrationRecord` with the checksum, commit;
on any failure the handle drops uncommitted, rolling back, and an error
naming the version is returned.  Returns the store state afterwards and the
error, if any. -/
def apply_migration (exec : SqlExec) (hash : HashFn) (db : DbState) (m : Migration) :
    DbState × Option String :=
  match DatabaseTransaction.execute_batch exec (Database.transaction db) m.up_sql with
  | none =>
      ((DatabaseTransaction.dropHandle (Database.transaction db)).1,
       some ("Failed to execute migration SQL for version " ++ toString m.version))
  | some t1 =>
      match DatabaseTransaction.execute_insert_record t1 m.version m.description
          (calculate_checksum hash m) with
      | none =>
          ((DatabaseTransaction.dropHandle t1).1,
           some ("Failed to record migration " ++ toString m.version))
      | some t2 =>
          ((DatabaseTransaction.dropHandle (DatabaseTransaction.commit t2)).1, none)

/-- The loop of `run_migrations` (lines 210-213): apply each pending
migration in order; a failure aborts immediately, wrapped (`with_context`,
which is what `anyhow` displays) as `Failed to apply migration {version}`. -/
def runMigrationList (exec : SqlExec) (hash : HashFn) :
    List Migration → DbState → DbState × Option String
  | [], db => (db, none)
  | m :: rest, db =>
      match apply_migration exec hash db m with
      | (db1, some _) => (db1, some ("Failed to apply migration " ++ toString m.version))
      | (db1, none) => runMigrationList exec hash rest db1

/-- `MigrationManager::run_migrations` (lines 192-217): select the pending
migrations once against the current version and apply them in order. -/
def run_migrations (exec : SqlExec) (hash : HashFn) (migs : List Migration)
    (db : DbState) : DbState × Option String :=
  runMigrationList exec hash (pendingMigrations migs (get_current_version db)) db

/-- `self.migrations.get(&version)` in `verify_migrations`: the catalog
entry of a version (`find?` agrees with the map lookup because the catalog
is keyed by version). -/
def findMigration (migs : List Migration) (v : Nat) : Option Migration :=
  migs.find? (fun m => m.version = v)

/-- Insert a record into a version-sorted list (`ORDER BY version`). -/
def insertSortedByVersion (r : MigrationRecord) :
    List MigrationRecord → List MigrationRecord
  | [] => [r]
  | x :: xs =>
      if r.version ≤ x.version then r :: x :: xs else x :: insertSortedByVersion r xs

/-- The `ORDER BY version` of the `SELECT` in `verify_migrations`. -/
def sortByVersion (rs : List MigrationRecord) : List MigrationRecord :=
  rs.foldr insertSortedByVersion []

/-- The verification loop of `verify_migrations` (lines 330-347): for each
applied row, an unknown version or a checksum different from the one
recomputed from the catalog is an error naming the version. -/
def verifyRecords (hash : HashFn) (migs : List Migration) :
    List MigrationRecord → Except String Unit
  | [] => .ok ()
  | r :: rest =>
      match findMigration migs r.version with
      | some m =>
          if r.checksum ≠ calculate_checksum hash m then
            .error ("Migration " ++ toString r.version ++ " has been modified!")
          else verifyRecords hash migs rest
      | none => .error ("Unknown migration " ++ toString r.version ++ " found in database")

/-- `MigrationManager::verify_migrations` (lines 315-350): read all applied
rows ordered by version and check each against the catalog.  When the
`schema_migrations` table does not exist, the `SELECT` fails to prepare. -/
def verify_migrations (hash : HashFn) (migs : List Migration) (db : DbState) :
    Except String Unit :=
  match db.schemaMigrations with
  | none => .error "Failed to prepare statement"
  | some rs => verifyRecords hash migs (sortByVersion rs)

/-! ## Concrete instances used by witnesses -/

/-- A concrete SQL semantics for witnesses: every statement succeeds and
ensures the `schema_migrations` table exists (as the catalog's
`CREATE TABLE IF NOT EXISTS schema_migrations` statement does). -/
def wExec : SqlExec :=
  fun _ db => some { db with schemaMigrations := some (db.schemaMigrations.getD []) }

/-- A concrete SQL semantics for witnesses in which every statement fails. -/
def wFailExec : SqlExec :=
  fun _ _ => none

/-- A concrete checksum hash for witnesses. -/
def wHash : HashFn :=
  fun v d u b => toString v ++ ":" ++ d ++ ":" ++ u ++ ":" ++ b.getD ""

/-- A one-entry migration catalog for witnesses. -/
def wMig1 : Migration :=
  { version := 1, description := "m1", up_sql := "u1", down_sql := none }

/-- A fresh store: no `schema_migrations` table. -/
def wFresh : DbState :=
  { schemaMigrations := none, objects := [] }

/-- The store after applying `wMig1` to `wFresh` under `wExec`/`wHash`. -/
def wDb1 : DbState :=
  { schemaMigrations := some [⟨1, "m1", "1:m1:u1:"⟩], objects := [] }

/-- SQL semantics that touch only the opaque schema objects leave the
recorded migration versions alone.  True of the shipped catalog: the only
statement that writes `schema_migrations` is the engine's own INSERT, and
migration 1's `CREATE TABLE IF NOT EXISTS` creates it empty. -/
def ExecPreservesRecords (exec : SqlExec) : Prop :=
  ∀ sql s s', exec sql s = some s' → recordVersions s' = recordVersions s

/-- The field names of a serialized JSON object. -/
def JVal.objKeys : JVal → List String
  | .obj fs => fs.map (fun f => f.1)
  | _ => []

/-- Look a field up in a serialized JSON object. -/
def JVal.getField (v : JVal) (k : String) : Option JVal :=
  match v with
  | .obj fs => List.lookup k fs
  | _ => none

/-- A concrete error for the JSON-envelope counterexample. -/
def wCexErr : AnyError :=
  .cli (CliError.new ERR_ASSET_NOT_FOUND "Sound not found" "Does not exist")

/-- The same error carrying context, for the context-field counterexample. -/
def wCtxErr : AnyError :=
  .cli ((CliError.new ERR_ASSET_NOT_FOUND "Sound not found" "Does not exist").with_context
    "sounds/explosion.json")

/-! ## Helper lemmas -/

theorem wExec_preservesRecords : ExecPreservesRecords wExec := by
  intro sql s s' h
  unfold wExec at h
  cases h
  unfold recordVersions
  cases s.schemaMigrations <;> rfl

theorem le_foldl_max (l : List Nat) : ∀ a : Nat, a ≤ l.foldl max a := by
  induction l with
  | nil => intro a; exact le_refl a
  | cons x xs ih => intro a; exact le_trans (le_max_left a x) (ih (max a x))

theorem mem_le_foldl_max (l : List Nat) : ∀ a x : Nat, x ∈ l → x ≤ l.foldl max a := by
  induction l with
  | nil => intro a x h; cases h
  | cons y ys ih =>
      intro a x h
      rcases List.mem_cons.mp h with rfl | h1
      · exact le_trans (le_max_right a x) (le_foldl_max ys (max a x))
      · exact ih (max a y) x h1

theorem get_current_version_eq (db : DbState) :
    get_current_version db = (recordVersions db).foldl max 0 := by
  unfold get_current_version recordVersions
  cases db.schemaMigrations with
  | none => rfl
  | some rs => rw [List.foldl_map]

theorem execute_batch_some (exec : SqlExec) (t t1 : DatabaseTransaction) (sql : String)
    (h : DatabaseTransaction.execute_batch exec t sql = some t1) :
    ∃ w, exec sql t.work = some w ∧ t1 = { t with work := w } := by
  unfold DatabaseTransaction.execute_batch at h
  cases he : exec sql t.work with
  | none => rw [he] at h; cases h
  | some w => rw [he] at h; cases h; exact ⟨w, rfl, rfl⟩

theorem execute_insert_record_some (t t1 : DatabaseTransaction) (v : Nat) (d c : String)
    (h : DatabaseTransaction.execute_insert_record t v d c = some t1) :
    ∃ w, insertMigrationRecord t.work v d c = some w ∧ t1 = { t with work := w } := by
  unfold DatabaseTransaction.execute_insert_record at h
  cases he : insertMigrationRecord t.work v d c with
  | none => rw [he] at h; cases h
  | some w => rw [he] at h; cases h; exact ⟨w, rfl, rfl⟩

theorem insertMigrationRecord_some (db w : DbState) (v : Nat) (d c : String)
    (h : insertMigrationRecord db v d c = some w) :
    ∃ rs, db.schemaMigrations = some rs ∧
      rs.any (fun r => r.version = v) = false ∧
      w = { db with schemaMigrations := some (rs ++ [⟨v, d, c⟩]) } := by
  unfold insertMigrationRecord at h
  split at h
  case h_1 => cases h
  case h_2 rs heq =>
    split at h
    · cases h
    · cases h
      next hd =>
        exact ⟨rs, heq, by simpa using hd, rfl⟩

theorem apply_migration_fail (exec : SqlExec) (hash : HashFn) (db : DbState)
    (m : Migration) (db1 : DbState) (msg : String)
    (h : apply_migration exec hash db m = (db1, some msg)) : db1 = db := by
  unfold apply_migration at h
  split at h
  next heq =>
    simp only [Prod.mk.injEq] at h
    rw [← h.1]
    simp [Database.transaction, DatabaseTransaction.dropHandle]
  next t1 heq =>
    obtain ⟨w, hw, ht1⟩ := execute_batch_some exec _ t1 m.up_sql heq
    split at h
    next heq2 =>
      simp only [Prod.mk.injEq] at h
      rw [← h.1, ht1]
      simp [Database.transaction, DatabaseTransaction.dropHandle]
    next t2 heq2 =>
      simp only [Prod.mk.injEq] at h
      cases h.2

theorem apply_migration_ok (exec : SqlExec) (hash : HashFn) (db : DbState)
    (m : Migration) (db1 : DbState)
    (h : apply_migration exec hash db m = (db1, none)) :
    ∃ w rs, exec m.up_sql db = some w ∧ w.schemaMigrations = some rs ∧
      rs.any (fun r => r.version = m.version) = false ∧
      db1 = { w with
        schemaMigrations := some (rs ++ [⟨m.version, m.description, calculate_checksum hash m⟩]) } := by
  unfold apply_migration at h
  split at h
  next heq =>
    simp only [Prod.mk.injEq] at h
    cases h.2
  next t1 heq =>
    obtain ⟨w, hw, ht1⟩ := execute_batch_some exec _ t1 m.up_sql heq
    split at h
    next heq2 =>
      simp only [Prod.mk.injEq] at h
      cases h.2
    next t2 heq2 =>
      simp only [Prod.mk.injEq] at h
      obtain ⟨w2, hw2, ht2⟩ := execute_insert_record_some t1 t2 _ _ _ heq2
      obtain ⟨rs, hrs, hnodup, hw2eq⟩ := insertMigrationRecord_some t1.work w2 _ _ _ hw2
      refine ⟨w, rs, ?_, ?_, hnodup, ?_⟩
      · exact hw
      · rw [ht1] at hrs; exact hrs
      · rw [← h.1, ht2, hw2eq, ht1]
        simp [DatabaseTransaction.dropHandle, DatabaseTransaction.commit,
          Database.transaction]

theorem apply_migration_ok_versions (exec : SqlExec) (hash : HashFn) (db : DbState)
    (m : Migration) (db1 : DbState) (hpres : ExecPreservesRecords exec)
    (h : apply_migration exec hash db m = (db1, none)) :
    recordVersions db1 = recordVersions db ++ [m.version] ∧
    m.version ∉ recordVersions db := by
  obtain ⟨w, rs, hw, hrs, hnodup, hdb1⟩ := apply_migration_ok exec hash db m db1 h
  have hwv : recordVersions w = recordVersions db := hpres m.up_sql db w hw
  have hrv : recordVersions w = rs.map (fun r => r.version) := by
    unfold recordVersions
    rw [hrs]
  have hnotin : m.version ∉ rs.map (fun r => r.version) := by
    intro hmem
    obtain ⟨r, hr, hv⟩ := List.mem_map.mp hmem
    have : rs.any (fun r => r.version = m.version) = true :=
      List.any_eq_true.mpr ⟨r, hr, by simp [hv]⟩
    rw [hnodup] at this
    cases this
  constructor
  · rw [hdb1]
    unfold recordVersions
    simp only [List.map_append, List.map_cons, List.map_nil]
    rw [← hrv, hwv]
    rfl
  · rw [← hwv, hrv]
    exact hnotin

theorem runMigrationList_append (exec : SqlExec) (hash : HashFn)
    (pre rest : List Migration) :
    ∀ db db1 : DbState, runMigrationList exec hash pre db = (db1, none) →
      runMigrationList exec hash (pre ++ rest) db = runMigrationList exec hash rest db1 := by
  induction pre with
  | nil =>
      intro db db1 h
      unfold runMigrationList at h
      simp only [Prod.mk.injEq] at h
      rw [List.nil_append, h.1]
  | cons m pre1 ih =>
      intro db db1 h
      cases ha : apply_migration exec hash db m with
      | mk d o =>
          cases o with
          | some msg =>
              simp only [runMigrationList, ha, Prod.mk.injEq] at h
              cases h.2
          | none =>
              simp only [runMigrationList, ha] at h
              rw [List.cons_append]
              simp only [runMigrationList, ha]
              exact ih d db1 h

theorem runMigrationList_ok_versions (exec : SqlExec) (hash : HashFn)
    (hpres : ExecPreservesRecords exec) (l : List Migration) :
    ∀ db db1 : DbState, runMigrationList exec hash l db = (db1, none) →
      recordVersions db1 = recordVersions db ++ l.map (fun m => m.version) := by
  induction l with
  | nil =>
      intro db db1 h
      unfold runMigrationList at h
      simp only [Prod.mk.injEq] at h
      rw [← h.1]
      simp
  | cons m l1 ih =>
      intro db db1 h
      cases ha : apply_migration exec hash db m with
      | mk d o =>
          cases o with
          | some msg =>
              simp only [runMigrationList, ha, Prod.mk.injEq] at h
              cases h.2
          | none =>
              simp only [runMigrationList, ha] at h
              obtain ⟨hv, _⟩ :=
                apply_migration_ok_versions exec hash db m d hpres ha
              rw [ih d db1 h, hv]
              simp

theorem txnRun_base_committed (exec : SqlExec) (sqls : List String) :
    ∀ t t1 : DatabaseTransaction, txnRun exec t sqls = some t1 →
      t1.base = t.base ∧ t1.committed = t.committed := by
  induction sqls with
  | nil =>
      intro t t1 h
      unfold txnRun at h
      cases h
      exact ⟨rfl, rfl⟩
  | cons sql rest ih =>
      intro t t1 h
      unfold txnRun at h
      cases hb : DatabaseTransaction.execute_batch exec t sql with
      | none => rw [hb] at h; cases h
      | some t2 =>
          rw [hb] at h
          obtain ⟨w, hw, ht2⟩ := execute_batch_some exec t t2 sql hb
          obtain ⟨h1, h2⟩ := ih t2 t1 h
          rw [ht2] at h1 h2
          exact ⟨h1, h2⟩

theorem mem_insertSortedByVersion (r x : MigrationRecord) (l : List MigrationRecord) :
    x ∈ insertSortedByVersion r l ↔ x = r ∨ x ∈ l := by
  induction l with
  | nil => simp [insertSortedByVersion]
  | cons y ys ih =>
      unfold insertSortedByVersion
      by_cases h : r.version ≤ y.version
      · simp only [if_pos h, List.mem_cons]
      · simp only [if_neg h, List.mem_cons, ih]
        tauto

theorem mem_sortByVersion (rs : List MigrationRecord) (x : MigrationRecord) :
    x ∈ sortByVersion rs ↔ x ∈ rs := by
  induction rs with
  | nil => simp [sortByVersion]
  | cons r rest ih =>
      unfold sortByVersion at ih ⊢
      simp only [List.foldr_cons, mem_insertSortedByVersion, ih, List.mem_cons]

theorem verifyRecords_ok_iff (hash : HashFn) (migs : List Migration)
    (rs : List MigrationRecord) :
    verifyRecords hash migs rs = .ok () ↔
      ∀ r ∈ rs, ∃ m, findMigration migs r.version = some m ∧
        r.checksum = calculate_checksum hash m := by
  induction rs with
  | nil => simp [verifyRecords]
  | cons r rest ih =>
      unfold verifyRecords
      cases hf : findMigration migs r.version with
      | none =>
          simp only
          constructor
          · intro h; exact Except.noConfusion h
          · intro hall
            obtain ⟨m, hm, _⟩ := hall r (List.mem_cons_self r rest)
            rw [hf] at hm
            cases hm
      | some m =>
          simp only
          by_cases hc : r.checksum = calculate_checksum hash m
          · rw [if_neg (by simp [hc])]
            rw [ih]
            constructor
            · intro hall r1 hr1
              rcases List.mem_cons.mp hr1 with rfl | h1
              · exact ⟨m, hf, hc⟩
              · exact hall r1 h1
            · intro hall r1 hr1
              exact hall r1 (List.mem_cons_of_mem r hr1)
          · rw [if_pos (by simp [hc])]
            constructor
            · intro h; exact Except.noConfusion h
            · intro hall
              obtain ⟨m1, hm1, hck⟩ := hall r (List.mem_cons_self r rest)
              rw [hf] at hm1
              cases hm1
              exact absurd hck hc

theorem newlineCount_append (a b : String) :
    newlineCount (a ++ b) = newlineCount a + newlineCount b := by
  unfold newlineCount
  rw [String.data_append, List.count_append]

/-! ## Claims -/

/-- C1 — Migration atomicity: for every catalog (with strictly increasing
versions), every SQL semantics whose forward statements do not themselves
write migration records, and every store state, when the pending selection
splits as `pre ++ m :: post` with the prefix `pre` succeeding and any
forward step of `m` failing inside `apply_migration`, `run_migrations`
returns exactly the state reached after the prefix — so no partial schema
change from `m` is observable afterwards and no `MigrationRecord` row for
`m.version` exists — together with an error naming the failed version; the
equation shows the run aborted without attempting `post`. -/
theorem migration_atomicity (exec : SqlExec) (hash : HashFn)
    (migs : List Migration) (db : DbState)
    (pre : List Migration) (m : Migration) (post : List Migration) (db1 : DbState)
    (hsorted : migs.Pairwise (fun a b => a.version < b.version))
    (hpres : ExecPreservesRecords exec)
    (hsplit : pendingMigrations migs (get_current_version db) = pre ++ m :: post)
    (hpre : runMigrationList exec hash pre db = (db1, none))
    (hfail : (apply_migration exec hash db1 m).2.isSome) :
    run_migrations exec hash migs db =
      (db1, some ("Failed to apply migration " ++ toString m.version)) ∧
    m.version ∉ recordVersions db1 := by
  have hpend : m ∈ pendingMigrations migs (get_current_version db) := by
    rw [hsplit]
    exact List.mem_append_right pre (List.mem_cons_self m post)
  have hpend1 : m ∈ migs.filter (fun a => get_current_version db < a.version) := hpend
  have hmv : get_current_version db < m.version := by
    have h2 := (List.mem_filter.mp hpend1).2
    simpa using h2
  have hrunv : recordVersions db1 = recordVersions db ++ pre.map (fun a => a.version) :=
    runMigrationList_ok_versions exec hash hpres pre db db1 hpre
  constructor
  · unfold run_migrations
    rw [hsplit]
    rw [runMigrationList_append exec hash pre (m :: post) db db1 hpre]
    cases ha : apply_migration exec hash db1 m with
    | mk d o =>
        cases o with
        | none => rw [ha] at hfail; simp at hfail
        | some msg =>
            have hd : d = db1 := apply_migration_fail exec hash db1 m d msg ha
            simp only [runMigrationList, ha, hd]
  · rw [hrunv]
    intro hmem
    rcases List.mem_append.mp hmem with hin | hin
    · have hle : m.version ≤ get_current_version db := by
        rw [get_current_version_eq]
        exact mem_le_foldl_max _ 0 m.version hin
      omega
    · obtain ⟨a, ha1, ha2⟩ := List.mem_map.mp hin
      have hpair : List.Pairwise (fun a b : Migration => a.version < b.version)
          (pendingMigrations migs (get_current_version db)) := by
        unfold pendingMigrations
        exact List.Pairwise.sublist (List.filter_sublist migs) hsorted
      rw [hsplit] at hpair
      have h3 := (List.pairwise_append.mp hpair).2.2 a ha1 m (List.mem_cons_self m post)
      omega

/-- Witness for C1: a fresh store, the one-entry catalog, and a SQL
semantics in which every statement fails. -/
theorem migration_atomicity_witness :
    run_migrations wFailExec wHash [wMig1] wFresh =
      (wFresh, some ("Failed to apply migration " ++ toString wMig1.version)) ∧
    wMig1.version ∉ recordVersions wFresh :=
  migration_atomicity wFailExec wHash [wMig1] wFresh [] wMig1 [] wFresh
    (by decide) (fun _ _ _ h => Option.noConfusion h) (by decide) rfl (by decide)

/-- C2 — Migration idempotence: after a successful run ends in state `db1`
(under SQL semantics whose statements do not themselves write migration
records), running again selects no pending migration, applies nothing —
returning `db1` unchanged and no error — and leaves the schema version and
the migration-record count identical. -/
theorem migration_idempotence (exec : SqlExec) (hash : HashFn)
    (migs : List Migration) (db db1 : DbState)
    (hpres : ExecPreservesRecords exec)
    (hrun : run_migrations exec hash migs db = (db1, none)) :
    pendingMigrations migs (get_current_version db1) = [] ∧
    run_migrations exec hash migs db1 = (db1, none) ∧
    get_current_version (run_migrations exec hash migs db1).1 = get_current_version db1 ∧
    recordCount (run_migrations exec hash migs db1).1 = recordCount db1 := by
  have hrun1 : runMigrationList exec hash
      (pendingMigrations migs (get_current_version db)) db = (db1, none) := hrun
  have hrunv : recordVersions db1 = recordVersions db ++
      (pendingMigrations migs (get_current_version db)).map (fun a => a.version) :=
    runMigrationList_ok_versions exec hash hpres _ db db1 hrun1
  have hcur : get_current_version db ≤ get_current_version db1 := by
    rw [get_current_version_eq, get_current_version_eq, hrunv, List.foldl_append]
    exact le_foldl_max _ _
  have hpend1 : pendingMigrations migs (get_current_version db1) = [] := by
    unfold pendingMigrations
    rw [List.filter_eq_nil_iff]
    intro a ha
    simp only [decide_eq_true_eq, Nat.not_lt]
    by_cases hc : get_current_version db < a.version
    · have hinp : a ∈ migs.filter (fun x => get_current_version db < x.version) :=
        List.mem_filter.mpr ⟨ha, by simp [hc]⟩
      have hinv : a.version ∈ recordVersions db1 := by
        rw [hrunv]
        exact List.mem_append_right _ (List.mem_map.mpr ⟨a, hinp, rfl⟩)
      rw [get_current_version_eq]
      exact mem_le_foldl_max _ 0 a.version hinv
    · omega
  have hsecond : run_migrations exec hash migs db1 = (db1, none) := by
    unfold run_migrations
    rw [hpend1]
    rfl
  exact ⟨hpend1, hsecond, by rw [hsecond], by rw [hsecond]⟩

/-- Witness for C2: the one-entry catalog applied to a fresh store under a
SQL semantics where every statement succeeds. -/
theorem migration_idempotence_witness :
    pendingMigrations [wMig1] (get_current_version wDb1) = [] ∧
    run_migrations wExec wHash [wMig1] wDb1 = (wDb1, none) ∧
    get_current_version (run_migrations wExec wHash [wMig1] wDb1).1 =
      get_current_version wDb1 ∧
    recordCount (run_migrations wExec wHash [wMig1] wDb1).1 = recordCount wDb1 :=
  migration_idempotence wExec wHash [wMig1] wFresh wDb1 wExec_preservesRecords (by decide)

/-- C3 — Exit-code mapping: a `CliError` in the SDK/infrastructure range
`-28999..=-28000` yields the system-error status `2`; a `CliError` with any
other code (validation, asset, project, or outside every known range)
yields the user-error status `1`; an error that is not a `CliError` yields
the system-error status `2`; and the exit code computed in `main`'s error
branch does not depend on which output renderer the `--json` flag
selected. -/
theorem determine_exit_code_policy :
    (∀ e : CliError, (-28999 ≤ e.code ∧ e.code ≤ -28000) →
        determine_exit_code (.cli e) = SYSTEM_ERROR) ∧
    (∀ e : CliError, ¬(-28999 ≤ e.code ∧ e.code ≤ -28000) →
        determine_exit_code (.cli e) = USER_ERROR) ∧
    (∀ msg : String, determine_exit_code (.other msg) = SYSTEM_ERROR) ∧
    (∀ (j j1 : Bool) (e : AnyError), mainExitOnError j e = mainExitOnError j1 e) := by
  refine ⟨?_, ?_, fun _ => rfl, fun _ _ _ => rfl⟩
  · intro e h
    simp [determine_exit_code, h]
  · intro e h
    simp [determine_exit_code, h]

/-- Witness for C3: an SDK-range error exits `2`, an asset-range error
exits `1`. -/
theorem determine_exit_code_policy_witness :
    determine_exit_code (.cli (CliError.new ERR_SDK_NOT_FOUND "a" "b")) = SYSTEM_ERROR ∧
    determine_exit_code (.cli (CliError.new ERR_ASSET_NOT_FOUND "a" "b")) = USER_ERROR :=
  ⟨determine_exit_code_policy.1 (CliError.new ERR_SDK_NOT_FOUND "a" "b") (by decide),
   determine_exit_code_policy.2.1 (CliError.new ERR_ASSET_NOT_FOUND "a" "b") (by decide)⟩

/-- C6 — Transaction rollback-on-drop: a transaction opened on state `db`,
after any sequence of statements executed inside it, when dropped without
`commit` issues a `ROLLBACK` and the store is exactly `db` again (so rows
written inside are not observable and every row count equals the count from
before `BEGIN`); the same handle after `commit` issues no rollback on drop
and the store keeps the transaction's work. -/
theorem transaction_rollback_on_drop (exec : SqlExec) (db : DbState)
    (sqls : List String) (t1 : DatabaseTransaction)
    (h : txnRun exec (Database.transaction db) sqls = some t1) :
    t1.dropHandle = (db, true) ∧
    (DatabaseTransaction.commit t1).dropHandle = (t1.work, false) := by
  obtain ⟨hb, hc⟩ := txnRun_base_committed exec sqls (Database.transaction db) t1 h
  simp only [Database.transaction] at hb hc
  constructor
  · unfold DatabaseTransaction.dropHandle
    rw [hc, hb]
    rfl
  · unfold DatabaseTransaction.dropHandle DatabaseTransaction.commit
    rfl

/-- Witness for C6: one row written inside the transaction on a fresh
store, dropped uncommitted. -/
theorem transaction_rollback_on_drop_witness :
    DatabaseTransaction.dropHandle
        { base := wFresh, work := { schemaMigrations := some [], objects := [] },
          committed := false } = (wFresh, true) ∧
    DatabaseTransaction.dropHandle
        (DatabaseTransaction.commit
          { base := wFresh, work := { schemaMigrations := some [], objects := [] },
            committed := false }) =
      ({ schemaMigrations := some [], objects := [] }, false) :=
  transaction_rollback_on_drop wExec wFresh ["w1"]
    { base := wFresh, work := { schemaMigrations := some [], objects := [] },
      committed := false } (by decide)

/-- C7 — Checksum integrity: the checksum is a function of the catalog
entry's `(version, description, up_sql, down_sql)` alone; a successful
`apply_migration` stores exactly that checksum in the new
`MigrationRecord`; and `verify_migrations` over applied rows `rs` succeeds
exactly when every applied row's version is found in the catalog with a
recomputed checksum equal to the stored one — so a catalog entry mutated
after application (stored checksum no longer matching) or a version absent
from the catalog makes `verify` return an error, never pass silently. -/
theorem checksum_integrity (hash : HashFn) (migs : List Migration)
    (db : DbState) (rs : List MigrationRecord)
    (hdb : db.schemaMigrations = some rs) :
    (∀ m m1 : Migration, m.version = m1.version → m.description = m1.description →
        m.up_sql = m1.up_sql → m.down_sql = m1.down_sql →
        calculate_checksum hash m = calculate_checksum hash m1) ∧
    (∀ (exec : SqlExec) (db0 db2 : DbState) (m : Migration),
        apply_migration exec hash db0 m = (db2, none) →
        (⟨m.version, m.description, calculate_checksum hash m⟩ : MigrationRecord) ∈
          db2.schemaMigrations.getD []) ∧
    (verify_migrations hash migs db = .ok () ↔
      ∀ r ∈ rs, ∃ m, findMigration migs r.version = some m ∧
        r.checksum = calculate_checksum hash m) := by
  refine ⟨?_, ?_, ?_⟩
  · intro m m1 h1 h2 h3 h4
    unfold calculate_checksum
    rw [h1, h2, h3, h4]
  · intro exec db0 db2 m h
    obtain ⟨w, rs0, _, _, _, hdb2⟩ := apply_migration_ok exec hash db0 m db2 h
    rw [hdb2]
    simp
  · unfold verify_migrations
    rw [hdb]
    show verifyRecords hash migs (sortByVersion rs) = .ok () ↔ _
    rw [verifyRecords_ok_iff]
    constructor
    · intro hall r hr
      exact hall r ((mem_sortByVersion rs r).mpr hr)
    · intro hall r hr
      exact hall r ((mem_sortByVersion rs r).mp hr)

/-- Witness for C7: the store holding the record written for `wMig1`
verifies cleanly against the one-entry catalog. -/
theorem checksum_integrity_witness :
    verify_migrations wHash [wMig1] wDb1 = .ok () :=
  ((checksum_integrity wHash [wMig1] wDb1 [⟨1, "m1", "1:m1:u1:"⟩] rfl).2.2).mpr
    (by
      intro r hr
      simp only [List.mem_singleton] at hr
      subst hr
      exact ⟨wMig1, rfl, rfl⟩)

/-- C4 counterexample — the claim that the JSON error object contains a
`why` field and a `context` field when context is carried is false at a
concrete error: the serialized error object's fields are exactly `code`,
`type`, `message`, `suggestion`; there is never a `why` field, and even an
error carrying context produces no `context` field. -/
theorem json_error_envelope_cex :
    (((build_error_response wCexErr ERR_ASSET_NOT_FOUND).toJson.getField
        "error").getD JVal.null).objKeys = ["code", "type", "message", "suggestion"] ∧
    (((build_error_response wCexErr ERR_ASSET_NOT_FOUND).toJson.getField
        "error").getD JVal.null).getField "why" = none ∧
    (((build_error_response wCtxErr ERR_ASSET_NOT_FOUND).toJson.getField
        "error").getD JVal.null).getField "context" = none := by
  refine ⟨rfl, rfl, rfl⟩

/-- C4 amended — the JSON error envelope is
`(ok: false, error: (code, type, message, suggestion))`: the serialization
of `build_error_response` has exactly these fields, the `why` and `context`
of a `CliError` appearing only flattened inside `message` via its `Display`
output, with no separate `why` field and no `context` field whether or not
context is carried. -/
theorem json_error_envelope_shape (err : AnyError) (code : Int) :
    (build_error_response err code).toJson =
      .obj [("ok", .bool false),
            ("error", .obj [("code", .num code),
                            ("type", .str (error_type_from_code code)),
                            ("message", .str err.toMessage),
                            ("suggestion", .str (suggestion_from_code code))])] := rfl

/-- C5 counterexample — the claim that a success call in JSON mode writes
exactly one line to standard output is false at the concrete payload
`null`: the output is pretty-printed and contains more than one newline. -/
theorem json_single_line_cex :
    newlineCount (JsonOutput.success JVal.null).stdout ≠ 1 := by
  have h : (JsonOutput.success JVal.null).stdout =
      "\x7b\n" ++ prettyFields 1 "ok" (.bool true) [("value", JVal.null)] ++ "\n" ++
        indentOf 0 ++ "\x7d" ++ "\n" := by
    show write_response (build_success_response JVal.null) = _
    unfold write_response serialize_response build_success_response JsonResponse.toJson
    simp only [List.cons_append, List.nil_append]
    rw [prettyVal]
  rw [h]
  simp only [newlineCount_append]
  have h1 : newlineCount "\x7b\n" = 1 := by decide
  have h2 : newlineCount "\n" = 1 := by decide
  rw [h1, h2]
  omega

/-- C5 amended — a success call in JSON mode writes exactly one
pretty-printed JSON object to standard output (the serialization of the
`(ok: true, value: data)` envelope followed by one newline — spanning
several output lines, not one) and zero bytes to standard error. -/
theorem json_success_envelope (data : JVal) :
    JsonOutput.success data =
      { stdout := prettyVal 0 (JVal.obj [("ok", .bool true), ("value", data)]) ++ "\n",
        stderr := "" } := rfl

/-- C8 — Non-interactive input fails fast: `prompt_text`, `select` and
`confirm` on `NonInteractiveInput` each return an error for every input
(never a value), the message always instructing the caller to supply the
value via command-line arguments; and selecting JSON output at startup
forces the non-interactive input implementation whether or not
`--non-interactive` was separately requested. -/
theorem non_interactive_fails_fast :
    (∀ (prompt : String) (ph : Option String) (fm : Option (String → String))
        (va : Option (String → Bool)),
      NonInteractiveInput.prompt_text prompt ph fm va = .error (blocked "prompt" prompt)) ∧
    (∀ (prompt : String) (opts : List String),
      NonInteractiveInput.select prompt opts = .error (blocked "selection" prompt)) ∧
    (∀ (prompt : String) (d : Option Bool),
      NonInteractiveInput.confirm prompt d = .error (blocked "confirmation" prompt)) ∧
    (∀ kind prompt : String,
      ∃ a b, blocked kind prompt = a ++ ("command-line arguments" ++ b)) ∧
    (∀ ni : Bool, selectInputMode true ni = .nonInteractive) := by
  refine ⟨fun _ _ _ _ => rfl, fun _ _ => rfl, fun _ _ => rfl, ?_, fun _ => rfl⟩
  intro kind prompt
  refine ⟨"Interactive " ++ kind ++ " '" ++ prompt ++
    "' blocked: non-interactive mode is enabled. Please provide the required input via ",
    " instead.", ?_⟩
  have hsplit : blockedTail =
      "' blocked: non-interactive mode is enabled. Please provide the required input via " ++
        ("command-line arguments" ++ " instead.") := by decide
  unfold blocked
  rw [hsplit]
  simp [String.append_assoc]

/-- C9 — the JSON renderer's suggestion is a function of the numeric code
alone: `build_error_response` derives it from `suggestion_from_code`, so an
error customized with `with_suggestion` produces the identical envelope,
and every envelope's suggestion equals `suggestion_from_code code`. -/
theorem json_suggestion_ignores_override :
    (∀ (e : CliError) (s : String) (code : Int),
        build_error_response (.cli (e.with_suggestion s)) code =
          build_error_response (.cli e) code) ∧
    (∀ (err : AnyError) (code : Int),
        (build_error_response err code).error.map (fun d => d.suggestion) =
          some (suggestion_from_code code)) :=
  ⟨fun _ _ _ => rfl, fun _ _ => rfl⟩

/-- C10 counterexample — the two code → type-name mappers disagree at the
template-copy-failed code `-29004`: the taxonomy module maps it to
`template_copy_failed`, the JSON renderer (which has no `-29004` arm) to
the range fallback `project_error`. -/
theorem type_name_mappers_cex :
    error_type_name (-29004) = "template_copy_failed" ∧
    error_type_from_code (-29004) = "project_error" ∧
    error_type_name (-29004) ≠ error_type_from_code (-29004) := by
  refine ⟨by decide, by decide, by decide⟩

/-- C10 amended — at every integer code other than `-29004`, the taxonomy
module's `error_type_name` and the JSON renderer's `error_type_from_code`
return the same type name. -/
theorem type_name_mappers_agree (code : Int) (h : code ≠ -29004) :
    error_type_name code = error_type_from_code code := by
  by_cases e1 : code = -31001
  · subst e1; decide
  by_cases e2 : code = -31002
  · subst e2; decide
  by_cases e3 : code = -31003
  · subst e3; decide
  by_cases e4 : code = -30001
  · subst e4; decide
  by_cases e5 : code = -30002
  · subst e5; decide
  by_cases e6 : code = -30003
  · subst e6; decide
  by_cases e7 : code = -29001
  · subst e7; decide
  by_cases e8 : code = -29002
  · subst e8; decide
  by_cases e9 : code = -29003
  · subst e9; decide
  by_cases e10 : code = -28001
  · subst e10; decide
  by_cases e11 : code = -28002
  · subst e11; decide
  unfold error_type_name error_type_from_code ERR_VALIDATION_SCHEMA ERR_VALIDATION_FIELD
    ERR_VALIDATION_FORMAT ERR_ASSET_NOT_FOUND ERR_ASSET_ALREADY_EXISTS ERR_ASSET_IN_USE
    ERR_PROJECT_NOT_INITIALIZED ERR_PROJECT_NOT_REGISTERED ERR_PROJECT_ALREADY_EXISTS
    ERR_TEMPLATE_COPY_FAILED ERR_SDK_NOT_FOUND ERR_SDK_SCHEMA_LOAD_FAILED
  by_cases r1 : -31999 ≤ code ∧ code ≤ -31000
  · simp only [if_neg e1, if_neg e2, if_neg e3, if_pos r1]
  by_cases r2 : -30999 ≤ code ∧ code ≤ -30000
  · simp only [if_neg e1, if_neg e2, if_neg e3, if_neg r1, if_neg e4, if_neg e5,
      if_neg e6, if_pos r2]
  by_cases r3 : -29999 ≤ code ∧ code ≤ -29000
  · simp only [if_neg e1, if_neg e2, if_neg e3, if_neg r1, if_neg e4, if_neg e5,
      if_neg e6, if_neg r2, if_neg e7, if_neg e8, if_neg e9, if_neg h, if_pos r3]
  by_cases r4 : -28999 ≤ code ∧ code ≤ -28000
  · simp only [if_neg e1, if_neg e2, if_neg e3, if_neg r1, if_neg e4, if_neg e5,
      if_neg e6, if_neg r2, if_neg e7, if_neg e8, if_neg e9, if_neg h, if_neg r3,
      if_neg e10, if_neg e11, if_pos r4]
  simp only [if_neg e1, if_neg e2, if_neg e3, if_neg r1, if_neg e4, if_neg e5,
    if_neg e6, if_neg r2, if_neg e7, if_neg e8, if_neg e9, if_neg h, if_neg r3,
    if_neg e10, if_neg e11, if_neg r4]

/-- Witness for C10's amended agreement, at the asset-not-found code. -/
theorem type_name_mappers_agree_witness :
    ((-30001 : Int) ≠ -29004) ∧ error_type_name (-30001) = error_type_from_code (-30001) :=
  ⟨by decide, type_name_mappers_agree (-30001) (by decide)⟩
